import Mathlib

/-!
Shallow embedding of `ghidra_mcp_server.py` (GhidraMCPServer).

The server's interaction with the outside world — the filesystem and the
external command-line tools it shells out to — is modelled by an `Env`
record: `fileExists` answers `Path.exists()`, `run` gives the outcome of
`subprocess.check_output(argv, ...)` for an argv list, and `statSize` /
`statMode` give `path.stat().st_size` / `st_mode`.  A subprocess outcome is
either captured stdout (`ok`), a raised `subprocess.CalledProcessError`
(nonzero exit), or a raised `FileNotFoundError` (the executable is absent);
the error constructors carry the text `str(e)` would produce.

Each handler returns `Except Exc String × List (List String)`: the normal
return value or the Python exception escaping the handler, paired with the
list of argv vectors of the external commands it invoked, in order (the
trace is used to state that a branch performs no external invocation).

Python `PurePosixPath` string conversion (`str(Path(p))`, `.name`) is
modelled by `pathStr` / `pathName`; `f-string` number formatting by
`commaFmt` (thousands grouping) and `kbFmt` (two decimals, half-even
rounding in exact arithmetic); Python `x in s` substring tests by `pyIn`.
-/

/-- Whether `pat` occurs as a contiguous run inside `s`. -/
def listInfixOf (pat : List Char) : List Char → Bool
  | [] => pat.isEmpty
  | c :: rest => List.isPrefixOf pat (c :: rest) || listInfixOf pat rest

/-- Python substring test `pat in s`. -/
def pyIn (pat s : String) : Bool := listInfixOf pat.data s.data

/-- Python ASCII whitespace as `str.strip()` removes it. -/
def pySpace (c : Char) : Bool :=
  c == ' ' || c == '\t' || c == '\n' || c == '\r' || c == '\x0b' || c == '\x0c'

/-- Python `s.strip()`. -/
def pyStrip (s : String) : String :=
  ⟨((s.data.dropWhile pySpace).reverse.dropWhile pySpace).reverse⟩

/-- Worker for `pySplit`: accumulates the current field in reverse. -/
def pySplitAux (sep : Char) : List Char → List Char → List String
  | [], acc => [⟨acc.reverse⟩]
  | c :: rest, acc =>
      if c == sep then ⟨acc.reverse⟩ :: pySplitAux sep rest []
      else pySplitAux sep rest (c :: acc)

/-- Python `s.split(sep)` for a one-character separator: on the empty
string it yields a single empty field, never zero fields. -/
def pySplit (s : String) (sep : Char) : List String := pySplitAux sep s.data []

/-- Python `s.startswith(pre)`. -/
def strStartsWith (s pre : String) : Bool := List.isPrefixOf pre.data s.data

/-- Outcome of one `subprocess.check_output` call: captured stdout, or a
raised `CalledProcessError` (nonzero exit status), or a raised
`FileNotFoundError` (executable absent).  The error payload is `str(e)`. -/
inductive ProcResult where
  | ok (output : String)
  | calledProcessError (detail : String)
  | toolMissing (detail : String)
deriving DecidableEq

/-- The Python exceptions that can cross the handler/dispatcher boundary. -/
inductive Exc where
  | keyError (key : String)
  | fileNotFoundError (detail : String)
  | calledProcessError (detail : String)
  | unboundLocalError (var : String)
deriving DecidableEq

/-- `str(e)` for each modelled exception, as interpolated by
`f"Error executing {name}: {str(e)}"`. -/
def Exc.detail : Exc → String
  | .keyError k => "\x27" ++ k ++ "\x27"
  | .fileNotFoundError d => d
  | .calledProcessError d => d
  | .unboundLocalError v =>
      "cannot access local variable \x27" ++ v ++
      "\x27 where it is not associated with a value"

/-- The external world as the handlers observe it: filesystem queries and
the outcome of each external command, keyed by its argv vector. -/
structure Env where
  fileExists : String → Bool
  run : List String → ProcResult
  statSize : String → Nat
  statMode : String → Nat

/-- The path components of a POSIX path as `PurePosixPath` keeps them:
empty components and lone dots are dropped. -/
def pathParts (s : String) : List String :=
  (pySplit s '/').filter (fun c => !(c == "") && !(c == "."))

/-- The root prefix `PurePosixPath` records: a double slash is kept as
written, three or more collapse to one. -/
def pathRoot (s : String) : String :=
  if strStartsWith s "//" && !(strStartsWith s "///") then "//"
  else if strStartsWith s "/" then "/"
  else ""

/-- `str(Path(p))`: normalized POSIX path text. -/
def pathStr (s : String) : String :=
  let r := pathRoot s
  let ps := pathParts s
  if r == "" && ps.isEmpty then "." else r ++ String.intercalate "/" ps

/-- `Path(p).name`: the final path component, or empty. -/
def pathName (s : String) : String := (pathParts s).getLastD ""

/-- Insert a comma after every third character of a reversed digit list. -/
def groupDigits : List Char → List Char
  | a :: b :: c :: d :: rest => a :: b :: c :: ',' :: groupDigits (d :: rest)
  | l => l
termination_by l => l.length

/-- Python `f"{n:,}"`: decimal digits with thousands separators. -/
def commaFmt (n : Nat) : String :=
  ⟨(groupDigits (toString n).data.reverse).reverse⟩

/-- Round `num / den` to the nearest integer, ties to even. -/
def roundHalfEven (num den : Nat) : Nat :=
  let q := num / den
  let r := num % den
  if 2 * r > den then q + 1
  else if 2 * r < den then q
  else if q % 2 == 0 then q else q + 1

/-- Two-digit zero-padded decimal. -/
def pad2 (n : Nat) : String := if n < 10 then "0" ++ toString n else toString n

/-- Python `f"{size / 1024:.2f}"` read in exact arithmetic: `size / 1024`
rounded half-even to two decimals. -/
def kbFmt (size : Nat) : String :=
  let h := roundHalfEven (size * 100) 1024
  toString (h / 100) ++ "." ++ pad2 (h % 100)

/-- Python `oct(n)`. -/
def pyOct (n : Nat) : String := "0o" ++ ⟨Nat.toDigits 8 n⟩

/-- Python `s[-3:]`. -/
def pyLast3 (s : String) : String := ⟨s.data.drop (s.data.length - 3)⟩

/-- Handler `analyze_binary(file_path)`.  Returns the formatted summary, or
the exception escaping the handler, with the trace of commands invoked.
When the `file` probe exits nonzero the `except` arm appends a message, but
the subsequent `"ELF" in file_output` test reads the never-assigned local
`file_output` and raises; when the `file` executable is absent the
`FileNotFoundError` is not caught at all. -/
def analyze_binary (env : Env) (file_path : String) :
    Except Exc String × List (List String) :=
  let path := pathStr file_path
  if env.fileExists path then
    let size := env.statSize path
    let results : List String :=
      ["=== Binary Analysis: " ++ pathName file_path ++ " ===\n",
       "File Size: " ++ commaFmt size ++ " bytes (" ++ kbFmt size ++ " KB)",
       "Permissions: " ++ pyLast3 (pyOct (env.statMode path))]
    match env.run ["file", path] with
    | .ok file_output =>
        let results := results ++ ["\nFile Type:\n" ++ pyStrip file_output]
        if pyIn "ELF" file_output then
          match env.run ["readelf", "-h", path] with
          | .ok readelf_output =>
              (.ok (String.intercalate "\n"
                  (results ++ ["\nELF Header:\n" ++ readelf_output])),
               [["file", path], ["readelf", "-h", path]])
          | _ =>
              (.ok (String.intercalate "\n"
                  (results ++ ["\n(readelf not available for detailed ELF analysis)"])),
               [["file", path], ["readelf", "-h", path]])
        else
          (.ok (String.intercalate "\n" results), [["file", path]])
    | .calledProcessError _ =>
        (.error (.unboundLocalError "file_output"), [["file", path]])
    | .toolMissing d =>
        (.error (.fileNotFoundError d), [["file", path]])
  else
    (.ok ("Error: File not found: " ++ file_path), [])

/-- Handler `extract_strings(file_path, min_length=4)`. -/
def extract_strings (env : Env) (file_path : String) (min_length : Int) :
    Except Exc String × List (List String) :=
  let path := pathStr file_path
  if env.fileExists path then
    let argv := ["strings", "-n", toString min_length, path]
    match env.run argv with
    | .ok strings_output =>
        let lines := pySplit (pyStrip strings_output) '\n'
        if lines.length > 100 then
          (.ok ("=== Strings Extracted (showing first 100 of " ++
                toString lines.length ++ ") ===\n\n" ++
                String.intercalate "\n" (lines.take 100) ++
                "\n\n... and " ++ toString (lines.length - 100) ++ " more strings"),
           [argv])
        else
          (.ok ("=== Strings Extracted (" ++ toString lines.length ++
                " total) ===\n\n" ++ String.intercalate "\n" lines),
           [argv])
    | .calledProcessError d =>
        (.ok ("Error extracting strings: " ++ d), [argv])
    | .toolMissing _ =>
        (.ok ("Error: \x27strings\x27 command not found. Install binutils package."),
         [argv])
  else
    (.ok ("Error: File not found: " ++ file_path), [])

/-- Handler `get_file_info(file_path)`.  Only `CalledProcessError` is
caught; an absent `file` executable raises out of the handler. -/
def get_file_info (env : Env) (file_path : String) :
    Except Exc String × List (List String) :=
  let path := pathStr file_path
  if env.fileExists path then
    match env.run ["file", "-b", path] with
    | .ok output => (.ok ("File Info: " ++ pyStrip output), [["file", "-b", path]])
    | .calledProcessError d => (.ok ("Error: " ++ d), [["file", "-b", path]])
    | .toolMissing d => (.error (.fileNotFoundError d), [["file", "-b", path]])
  else
    (.ok ("Error: File not found: " ++ file_path), [])

/-- Handler `check_security(file_path)`.  `checksec` first: only its
absence (`FileNotFoundError`) falls through to the manual probes; a nonzero
exit raises out of the handler.  The manual probes run in sequence, the
lines built so far are kept, and any probe failure appends the install
note. -/
def check_security (env : Env) (file_path : String) :
    Except Exc String × List (List String) :=
  let path := pathStr file_path
  if env.fileExists path then
    let results : List String := ["=== Security Features: " ++ pathName file_path ++ " ===\n"]
    let csArgv := ["checksec", "--file=" ++ path]
    match env.run csArgv with
    | .ok checksec_output =>
        (.ok (String.intercalate "\n" (results ++ [checksec_output])), [csArgv])
    | .calledProcessError d =>
        (.error (.calledProcessError d), [csArgv])
    | .toolMissing _ =>
        let note := "\nNote: Install \x27checksec\x27 or \x27readelf\x27 for detailed security analysis"
        match env.run ["readelf", "-l", path] with
        | .ok readelf_wx =>
            let nx_enabled := pyIn "GNU_STACK" readelf_wx && pyIn "RW" readelf_wx
            let results := results ++
              ["NX (No Execute): " ++ (if nx_enabled then "Enabled" else "Disabled")]
            match env.run ["readelf", "-h", path] with
            | .ok readelf_h =>
                let pie_enabled := pyIn "DYN (Shared object file)" readelf_h ||
                  pyIn "DYN (Position-Independent Executable file)" readelf_h
                let results := results ++
                  ["PIE: " ++ (if pie_enabled then "Enabled" else "Disabled")]
                match env.run ["nm", path] with
                | .ok symbols =>
                    let canary_enabled := pyIn "__stack_chk_fail" symbols
                    let results := results ++
                      ["Stack Canary: " ++ (if canary_enabled then "Enabled" else "Disabled")]
                    (.ok (String.intercalate "\n" results),
                     [csArgv, ["readelf", "-l", path], ["readelf", "-h", path], ["nm", path]])
                | _ =>
                    (.ok (String.intercalate "\n" (results ++ [note])),
                     [csArgv, ["readelf", "-l", path], ["readelf", "-h", path], ["nm", path]])
            | _ =>
                (.ok (String.intercalate "\n" (results ++ [note])),
                 [csArgv, ["readelf", "-l", path], ["readelf", "-h", path]])
        | _ =>
            (.ok (String.intercalate "\n" (results ++ [note])),
             [csArgv, ["readelf", "-l", path]])
  else
    (.ok ("Error: File not found: " ++ file_path), [])

/-- A protocol text content block (`TextContent(type="text", text=...)`). -/
structure TextContent where
  type : String
  text : String
deriving DecidableEq

/-- The argument mapping of an invocation, restricted to the keys the
dispatcher reads: `arguments["file_path"]` (raising `KeyError` when
absent) and `arguments.get("min_length", 4)`. -/
structure Arguments where
  file_path : Option String
  min_length : Option Int
deriving DecidableEq

/-- The body of the `try` block of `call_tool`: the routing chain and the
selected handler's outcome (the value returned, or the exception that the
`except` arm will catch).  A missing required `file_path` is the `KeyError`
raised by the subscript before the handler runs. -/
def dispatch (env : Env) (name : String) (args : Arguments) : Except Exc String :=
  if name = "analyze_binary" then
    match args.file_path with
    | none => .error (.keyError "file_path")
    | some fp => (analyze_binary env fp).1
  else if name = "extract_strings" then
    let min_len := args.min_length.getD 4
    match args.file_path with
    | none => .error (.keyError "file_path")
    | some fp => (extract_strings env fp min_len).1
  else if name = "get_file_info" then
    match args.file_path with
    | none => .error (.keyError "file_path")
    | some fp => (get_file_info env fp).1
  else if name = "check_security" then
    match args.file_path with
    | none => .error (.keyError "file_path")
    | some fp => (check_security env fp).1
  else
    .ok ("Unknown tool: " ++ name)

/-- `call_tool(name, arguments)`: wraps the dispatched outcome into exactly
one text content block; an exception becomes the
`Error executing <name>: <detail>` block.  Totality of this function is
the embedding of `call_tool` never raising to the transport. -/
def call_tool (env : Env) (name : String) (args : Arguments) : List TextContent :=
  match dispatch env name args with
  | .ok result => [{ type := "text", text := result }]
  | .error e => [{ type := "text", text := "Error executing " ++ name ++ ": " ++ e.detail }]

/-- Structured JSON-ish values, enough for the tool input schemas. -/
inductive JVal where
  | str (s : String)
  | int (n : Int)
  | obj (fields : List (String × JVal))
  | arr (items : List JVal)

/-- Field lookup in a list of JSON object fields. -/
def lookupField : List (String × JVal) → String → Option JVal
  | [], _ => none
  | (k, v) :: rest, key => if k = key then some v else lookupField rest key

/-- Field lookup on a JSON value (none on non-objects). -/
def JVal.lookup (j : JVal) (key : String) : Option JVal :=
  match j with
  | .obj fields => lookupField fields key
  | _ => none

/-- The string payload of a JSON value, if it is a string. -/
def JVal.getStr : JVal → Option String
  | .str s => some s
  | _ => none

/-- The integer payload of a JSON value, if it is an integer. -/
def JVal.getInt : JVal → Option Int
  | .int n => some n
  | _ => none

/-- The elements of a JSON array of strings, if it is one. -/
def JVal.strItems : JVal → Option (List String)
  | .arr items => items.mapM JVal.getStr
  | _ => none

/-- One advertised operation descriptor (`mcp.types.Tool`). -/
structure MTool where
  name : String
  description : String
  inputSchema : JVal

/-- The `list_tools` handler: the fixed registry returned on every
list-operations query, transcribed schema for schema. -/
def list_tools : List MTool :=
  [{ name := "analyze_binary",
     description := "Analyze a binary file and get basic information (file type, size, architecture)",
     inputSchema := .obj
       [("type", .str "object"),
        ("properties", .obj
          [("file_path", .obj
            [("type", .str "string"),
             ("description", .str "Path to the binary file to analyze")])]),
        ("required", .arr [.str "file_path"])] },
   { name := "extract_strings",
     description := "Extract readable strings from a binary file",
     inputSchema := .obj
       [("type", .str "object"),
        ("properties", .obj
          [("file_path", .obj
            [("type", .str "string"),
             ("description", .str "Path to the binary file")]),
           ("min_length", .obj
            [("type", .str "integer"),
             ("description", .str "Minimum string length (default: 4)"),
             ("default", .int 4)])]),
        ("required", .arr [.str "file_path"])] },
   { name := "get_file_info",
     description := "Get detailed file information using \x27file\x27 command",
     inputSchema := .obj
       [("type", .str "object"),
        ("properties", .obj
          [("file_path", .obj
            [("type", .str "string"),
             ("description", .str "Path to the file")])]),
        ("required", .arr [.str "file_path"])] },
   { name := "check_security",
     description := "Check binary security features (NX, PIE, Stack Canary, RELRO)",
     inputSchema := .obj
       [("type", .str "object"),
        ("properties", .obj
          [("file_path", .obj
            [("type", .str "string"),
             ("description", .str "Path to the binary file")])]),
        ("required", .arr [.str "file_path"])] }]

/-- The argument names a descriptor declares as required. -/
def requiredNames (t : MTool) : Option (List String) :=
  (t.inputSchema.lookup "required").bind JVal.strItems

/-- The argument names a descriptor's schema declares at all. -/
def propertyNames (t : MTool) : List String :=
  match t.inputSchema.lookup "properties" with
  | some (.obj fields) => fields.map Prod.fst
  | _ => []

/-- The declared type string of one schema property. -/
def propertyType (t : MTool) (key : String) : Option String :=
  ((t.inputSchema.lookup "properties").bind (JVal.lookup · key)).bind
    (fun p => (p.lookup "type").bind JVal.getStr)

/-- The declared default of one schema property, when integral. -/
def propertyDefault (t : MTool) (key : String) : Option Int :=
  ((t.inputSchema.lookup "properties").bind (JVal.lookup · key)).bind
    (fun p => (p.lookup "default").bind JVal.getInt)

deriving instance DecidableEq for Except

/-- A world with no files and no tools: every path is absent. -/
def envAbsent : Env :=
  { fileExists := fun _ => false, run := fun _ => .toolMissing "",
    statSize := fun _ => 0, statMode := fun _ => 0 }

/-- A world where every file exists and every tool prints nothing: the
string-extraction tool succeeds with empty output. -/
def envNoStrings : Env :=
  { fileExists := fun _ => true, run := fun _ => .ok "",
    statSize := fun _ => 0, statMode := fun _ => 0 }

/-- A world where every tool prints the two lines `a` and `b`. -/
def envTwoLines : Env :=
  { fileExists := fun _ => true, run := fun _ => .ok "a\nb",
    statSize := fun _ => 0, statMode := fun _ => 0 }

/-- A world agreeing with `envTwoLines` on the brief file probe of `/x`
but not elsewhere. -/
def envTwoLinesElsewhere : Env :=
  { fileExists := fun _ => true,
    run := fun argv => if argv = ["file", "-b", "/x"] then .ok "a\nb" else .toolMissing "gone",
    statSize := fun _ => 0, statMode := fun _ => 0 }

/-- A world with `checksec` absent and the three manual probes succeeding:
the program-header dump shows an RW GNU_STACK, the header a DYN type, the
symbol table no canary symbol. -/
def envManual : Env :=
  { fileExists := fun _ => true,
    run := fun argv =>
      match argv with
      | "checksec" :: _ => .toolMissing "checksec missing"
      | "readelf" :: "-l" :: _ => .ok "GNU_STACK RW"
      | "readelf" :: "-h" :: _ => .ok "Type: DYN (Shared object file)"
      | "nm" :: _ => .ok "0000 T main"
      | _ => .ok "",
    statSize := fun _ => 0, statMode := fun _ => 0 }

/-- A world where files exist but every external executable is absent. -/
def envToolsGone : Env :=
  { fileExists := fun _ => true, run := fun _ => .toolMissing "No such file or directory",
    statSize := fun _ => 0, statMode := fun _ => 0 }

/-- A world where files exist and every external command exits nonzero. -/
def envToolsFail : Env :=
  { fileExists := fun _ => true,
    run := fun _ => .calledProcessError "Command returned non-zero exit status 1.",
    statSize := fun _ => 0, statMode := fun _ => 0 }

/-- The split of a string never has zero fields. -/
theorem pySplitAux_ne_nil (sep : Char) (l acc : List Char) : pySplitAux sep l acc ≠ [] := by
  induction l generalizing acc with
  | nil => simp [pySplitAux]
  | cons c rest ih =>
      simp only [pySplitAux]
      split
      · simp
      · exact ih _

/-- Claim C1: for every operation name (known or not) and every argument
mapping, `call_tool` returns exactly one content block, of type text, and
never raises (it is total into block lists); whenever the dispatched
handler raises an exception `e` — including the `KeyError` of a missing
required argument — the block text is exactly
`Error executing <name>: <detail>`. -/
theorem call_tool_single_block (env : Env) (name : String) (args : Arguments) :
    (call_tool env name args).length = 1 ∧
    (∀ tc ∈ call_tool env name args, tc.type = "text") ∧
    (∀ e, dispatch env name args = .error e →
      call_tool env name args =
        [{ type := "text", text := "Error executing " ++ name ++ ": " ++ e.detail }]) := by
  refine ⟨?_, ?_, ?_⟩
  · cases h : dispatch env name args <;> simp [call_tool, h]
  · cases h : dispatch env name args <;> simp [call_tool, h]
  · intro e he
    simp [call_tool, he]

/-- Claim C1 witness: a call with the required argument missing yields the
single error block with the `KeyError` detail. -/
theorem call_tool_single_block_check :
    call_tool envAbsent "analyze_binary" { file_path := none, min_length := none } =
      [{ type := "text", text := "Error executing analyze_binary: \x27file_path\x27" }] := by
  have h := (call_tool_single_block envAbsent "analyze_binary"
      { file_path := none, min_length := none }).2.2 (.keyError "file_path") rfl
  exact h.trans rfl

/-- Claim C2: any operation name outside the fixed four dispatches to the
else-branch, a successfully returned single block reading exactly
`Unknown tool: <name>`; no exception arises. -/
theorem unknown_tool_reported (env : Env) (name : String) (args : Arguments)
    (h1 : name ≠ "analyze_binary") (h2 : name ≠ "extract_strings")
    (h3 : name ≠ "get_file_info") (h4 : name ≠ "check_security") :
    dispatch env name args = .ok ("Unknown tool: " ++ name) ∧
    call_tool env name args = [{ type := "text", text := "Unknown tool: " ++ name }] := by
  have hd : dispatch env name args = .ok ("Unknown tool: " ++ name) := by
    simp [dispatch, h1, h2, h3, h4]
  exact ⟨hd, by simp [call_tool, hd]⟩

/-- Claim C2 witness at the name `list_functions`. -/
theorem unknown_tool_reported_check :
    ("list_functions" ≠ "analyze_binary" ∧ "list_functions" ≠ "extract_strings" ∧
     "list_functions" ≠ "get_file_info" ∧ "list_functions" ≠ "check_security") ∧
    call_tool envAbsent "list_functions" { file_path := none, min_length := none } =
      [{ type := "text", text := "Unknown tool: list_functions" }] := by
  refine ⟨⟨by decide, by decide, by decide, by decide⟩, ?_⟩
  exact ((unknown_tool_reported envAbsent "list_functions" ⟨none, none⟩ (by decide) (by decide)
    (by decide) (by decide)).2).trans rfl

/-- Claim C3: all four handlers, on a path that does not exist, return
(never raise) the text `Error: File not found: <path>` and invoke no
external command (their invocation trace is empty). -/
theorem file_not_found_uniform (env : Env) (p : String) (ml : Int)
    (h : env.fileExists (pathStr p) = false) :
    analyze_binary env p = (.ok ("Error: File not found: " ++ p), []) ∧
    extract_strings env p ml = (.ok ("Error: File not found: " ++ p), []) ∧
    get_file_info env p = (.ok ("Error: File not found: " ++ p), []) ∧
    check_security env p = (.ok ("Error: File not found: " ++ p), []) := by
  refine ⟨?_, ?_, ?_, ?_⟩ <;>
    simp [analyze_binary, extract_strings, get_file_info, check_security, h]

/-- Claim C3 witness at the absent path `/nope`. -/
theorem file_not_found_uniform_check :
    envAbsent.fileExists (pathStr "/nope") = false ∧
    analyze_binary envAbsent "/nope" = (.ok "Error: File not found: /nope", []) ∧
    extract_strings envAbsent "/nope" 4 = (.ok "Error: File not found: /nope", []) ∧
    get_file_info envAbsent "/nope" = (.ok "Error: File not found: /nope", []) ∧
    check_security envAbsent "/nope" = (.ok "Error: File not found: /nope", []) := by
  have h := file_not_found_uniform envAbsent "/nope" 4 rfl
  exact ⟨rfl, h.1.trans rfl, h.2.1.trans rfl, h.2.2.1.trans rfl, h.2.2.2.trans rfl⟩

/-- Claim C4 counterexample: on an existing file where the extraction tool
succeeds producing zero newline-separated lines (empty output — the
intercalation of the empty list of lines), the response reports a total of
1, not the exact total 0: Python `"".split` yields one empty field. -/
theorem extract_strings_zero_report_cex :
    pyStrip "" = String.intercalate "\n" ([] : List String) ∧
    (extract_strings envNoStrings "/bin/app" 4).1 =
      .ok "=== Strings Extracted (1 total) ===\n\n" ∧
    (extract_strings envNoStrings "/bin/app" 4).1 ≠
      .ok ("=== Strings Extracted (" ++ toString (0 : Nat) ++ " total) ===\n\n" ++
        String.intercalate "\n" ([] : List String)) ∧
    pyIn "0 total" "=== Strings Extracted (1 total) ===\n\n" = false := by
  refine ⟨rfl, rfl, by decide, rfl⟩

/-- Claim C4 as amended: on an existing file where the extraction tool
succeeds, let the fields be the newline-split of the stripped output and N
their number: N is never 0 (on empty output the split is one empty field),
and the response shows the first 100 fields with the trailing remainder
count N − 100 when N > 100, and otherwise lists all N fields stating the
exact total N. -/
theorem extract_strings_line_report (env : Env) (p : String) (ml : Int) (out : String)
    (ls : List String)
    (hex : env.fileExists (pathStr p) = true)
    (hrun : env.run ["strings", "-n", toString ml, pathStr p] = .ok out)
    (hsplit : pySplit (pyStrip out) '\n' = ls) :
    1 ≤ ls.length ∧
    (100 < ls.length →
      (extract_strings env p ml).1 = .ok
        ("=== Strings Extracted (showing first 100 of " ++ toString ls.length ++
         ") ===\n\n" ++ String.intercalate "\n" (ls.take 100) ++
         "\n\n... and " ++ toString (ls.length - 100) ++ " more strings")) ∧
    (ls.length ≤ 100 →
      (extract_strings env p ml).1 = .ok
        ("=== Strings Extracted (" ++ toString ls.length ++ " total) ===\n\n" ++
         String.intercalate "\n" ls)) := by
  subst hsplit
  refine ⟨?_, ?_, ?_⟩
  · exact List.length_pos.mpr (pySplitAux_ne_nil _ _ _)
  · intro h
    simp [extract_strings, hex, hrun, h]
  · intro h
    have hn : ¬ (100 < (pySplit (pyStrip out) '\n').length) := Nat.not_lt.mpr h
    simp [extract_strings, hex, hrun, hn]

/-- Claim C4 witness: two extracted strings are listed in full with the
exact total 2. -/
theorem extract_strings_line_report_check :
    (extract_strings envTwoLines "/x" 4).1 =
      .ok "=== Strings Extracted (2 total) ===\n\na\nb" := by
  have h := (extract_strings_line_report envTwoLines "/x" 4 "a\nb" ["a", "b"]
      rfl rfl rfl).2.2 (by decide)
  exact h.trans rfl

/-- Claim C5: the registry lists exactly four descriptors, in the stable
order `analyze_binary`, `extract_strings`, `get_file_info`,
`check_security`, with unique names; every schema requires exactly
`file_path`, and only `extract_strings` additionally declares the optional
integer `min_length` with default 4; a registry name always routes to its
handler (its missing required argument is a `KeyError`, never the unknown
branch), and a non-registry name always takes the unknown branch. -/
theorem registry_matches_dispatcher :
    list_tools.map MTool.name =
      ["analyze_binary", "extract_strings", "get_file_info", "check_security"] ∧
    (list_tools.map MTool.name).Nodup ∧
    list_tools.length = 4 ∧
    (∀ t ∈ list_tools, requiredNames t = some ["file_path"]) ∧
    propertyNames (list_tools.get ⟨0, by decide⟩) = ["file_path"] ∧
    propertyNames (list_tools.get ⟨1, by decide⟩) = ["file_path", "min_length"] ∧
    propertyNames (list_tools.get ⟨2, by decide⟩) = ["file_path"] ∧
    propertyNames (list_tools.get ⟨3, by decide⟩) = ["file_path"] ∧
    propertyType (list_tools.get ⟨1, by decide⟩) "min_length" = some "integer" ∧
    propertyDefault (list_tools.get ⟨1, by decide⟩) "min_length" = some 4 ∧
    (∀ env name, name ∈ list_tools.map MTool.name →
      dispatch env name { file_path := none, min_length := none } =
        .error (.keyError "file_path")) ∧
    (∀ env name args, name ∉ list_tools.map MTool.name →
      dispatch env name args = .ok ("Unknown tool: " ++ name)) := by
  refine ⟨rfl, by decide, rfl, ?_, rfl, rfl, rfl, rfl, rfl, rfl, ?_, ?_⟩
  · intro t ht
    simp [list_tools] at ht
    rcases ht with rfl | rfl | rfl | rfl <;> rfl
  · intro env name hmem
    simp [list_tools] at hmem
    rcases hmem with rfl | rfl | rfl | rfl <;> rfl
  · intro env name args hmem
    simp [list_tools] at hmem
    obtain ⟨h1, h2, h3, h4⟩ := hmem
    simp [dispatch, h1, h2, h3, h4]

/-- Claim C5 witness: a registry name routes to its handler while a
non-registry name takes the unknown branch. -/
theorem registry_matches_dispatcher_check :
    dispatch envAbsent "check_security" { file_path := none, min_length := none } =
      .error (.keyError "file_path") ∧
    dispatch envAbsent "decompile_function" { file_path := none, min_length := none } =
      .ok "Unknown tool: decompile_function" := by
  constructor
  · exact registry_matches_dispatcher.2.2.2.2.2.2.2.2.2.2.1 envAbsent "check_security" (by decide)
  · exact (registry_matches_dispatcher.2.2.2.2.2.2.2.2.2.2.2 envAbsent "decompile_function"
      ⟨none, none⟩ (by decide)).trans rfl

/-- Claim C6: with `checksec` absent and the three manual probes
succeeding, each of NX, PIE and Stack Canary reads `Enabled` exactly when
the respective substring test on that probe's output holds, else
`Disabled`; and if the probing tool is itself absent the handler returns
the install note without raising. -/
theorem check_security_manual_probes (env : Env) (p : String) (d : String)
    (hex : env.fileExists (pathStr p) = true)
    (hcs : env.run ["checksec", "--file=" ++ pathStr p] = .toolMissing d) :
    (∀ wx hdr sym,
      env.run ["readelf", "-l", pathStr p] = .ok wx →
      env.run ["readelf", "-h", pathStr p] = .ok hdr →
      env.run ["nm", pathStr p] = .ok sym →
      (check_security env p).1 = .ok (String.intercalate "\n"
        ["=== Security Features: " ++ pathName p ++ " ===\n",
         "NX (No Execute): " ++
           (if pyIn "GNU_STACK" wx && pyIn "RW" wx then "Enabled" else "Disabled"),
         "PIE: " ++
           (if pyIn "DYN (Shared object file)" hdr ||
               pyIn "DYN (Position-Independent Executable file)" hdr
            then "Enabled" else "Disabled"),
         "Stack Canary: " ++
           (if pyIn "__stack_chk_fail" sym then "Enabled" else "Disabled")])) ∧
    (∀ d2, env.run ["readelf", "-l", pathStr p] = .toolMissing d2 →
      (check_security env p).1 = .ok (String.intercalate "\n"
        ["=== Security Features: " ++ pathName p ++ " ===\n",
         "\nNote: Install \x27checksec\x27 or \x27readelf\x27 for detailed security analysis"])) := by
  constructor
  · intro wx hdr sym h1 h2 h3
    simp [check_security, hex, hcs, h1, h2, h3]
  · intro d2 h1
    simp [check_security, hex, hcs, h1]

/-- Claim C6 witness: a world with RW GNU_STACK, a DYN header and no
canary symbol reports Enabled, Enabled, Disabled. -/
theorem check_security_manual_probes_check :
    (check_security envManual "/bin/app").1 =
      .ok "=== Security Features: app ===\n\nNX (No Execute): Enabled\nPIE: Enabled\nStack Canary: Disabled" := by
  have h := (check_security_manual_probes envManual "/bin/app" "checksec missing" rfl rfl).1
    "GNU_STACK RW" "Type: DYN (Shared object file)" "0000 T main" rfl rfl rfl
  exact h.trans rfl

/-- Claim C7: omitting `min_length` is the same call as passing 4: the
default is applied at the handler-invocation site, while the schema merely
declares it (requiring only `file_path`). -/
theorem min_length_default_applied (env : Env) (fp : Option String) :
    requiredNames (list_tools.get ⟨1, by decide⟩) = some ["file_path"] ∧
    propertyDefault (list_tools.get ⟨1, by decide⟩) "min_length" = some 4 ∧
    call_tool env "extract_strings" { file_path := fp, min_length := none } =
      call_tool env "extract_strings" { file_path := fp, min_length := some 4 } := by
  refine ⟨rfl, rfl, ?_⟩
  cases fp <;> rfl

/-- Claim C8: `get_file_info` is deterministic — two invocations on the
same path, in worlds agreeing on the file's existence and the brief
file-type probe's outcome there, return identical results. -/
theorem get_file_info_deterministic (env1 env2 : Env) (p : String)
    (hex : env1.fileExists (pathStr p) = env2.fileExists (pathStr p))
    (hrun : env1.run ["file", "-b", pathStr p] = env2.run ["file", "-b", pathStr p]) :
    get_file_info env1 p = get_file_info env2 p := by
  simp only [get_file_info]
  rw [hex, hrun]

/-- Claim C8 witness: two worlds differing away from the probe of `/x`
give byte-identical texts. -/
theorem get_file_info_deterministic_check :
    get_file_info envTwoLines "/x" = get_file_info envTwoLinesElsewhere "/x" ∧
    get_file_info envTwoLines "/x" = (.ok "File Info: a\nb", [["file", "-b", "/x"]]) := by
  exact ⟨get_file_info_deterministic envTwoLines envTwoLinesElsewhere "/x" rfl rfl, rfl⟩

/-- Claim C9: on an existing file, when the `file` probe does not succeed
the handler raises — an uncaught `FileNotFoundError` if the probe
executable is absent, and otherwise the read of the never-assigned local
`file_output` after the caught `CalledProcessError` — so the caller gets
the dispatcher's `Error executing analyze_binary: <detail>` block and
never a handler-level summary. -/
theorem analyze_binary_probe_failure_raises (env : Env) (p d : String)
    (hex : env.fileExists (pathStr p) = true) :
    (env.run ["file", pathStr p] = .toolMissing d →
      (analyze_binary env p).1 = .error (.fileNotFoundError d) ∧
      call_tool env "analyze_binary" { file_path := some p, min_length := none } =
        [{ type := "text", text := "Error executing analyze_binary: " ++ d }] ∧
      ∀ s, (analyze_binary env p).1 ≠ .ok s) ∧
    (env.run ["file", pathStr p] = .calledProcessError d →
      (analyze_binary env p).1 = .error (.unboundLocalError "file_output") ∧
      call_tool env "analyze_binary" { file_path := some p, min_length := none } =
        [{ type := "text", text := "Error executing analyze_binary: " ++
            Exc.detail (.unboundLocalError "file_output") }] ∧
      ∀ s, (analyze_binary env p).1 ≠ .ok s) := by
  constructor
  · intro h
    have hab : (analyze_binary env p).1 = .error (.fileNotFoundError d) := by
      simp [analyze_binary, hex, h]
    refine ⟨hab, ?_, ?_⟩
    · have hct := (call_tool_single_block env "analyze_binary"
        { file_path := some p, min_length := none }).2.2 (.fileNotFoundError d)
        (by simp [dispatch, hab])
      exact hct.trans rfl
    · intro s
      rw [hab]
      simp
  · intro h
    have hab : (analyze_binary env p).1 = .error (.unboundLocalError "file_output") := by
      simp [analyze_binary, hex, h]
    refine ⟨hab, ?_, ?_⟩
    · have hct := (call_tool_single_block env "analyze_binary"
        { file_path := some p, min_length := none }).2.2 (.unboundLocalError "file_output")
        (by simp [dispatch, hab])
      exact hct.trans rfl
    · intro s
      rw [hab]
      simp

/-- Claim C9 witness: with the probe executable absent, the caller gets
the dispatcher error block, not a summary. -/
theorem analyze_binary_probe_failure_check :
    (analyze_binary envToolsGone "/bin/app").1 =
      .error (.fileNotFoundError "No such file or directory") ∧
    call_tool envToolsGone "analyze_binary" { file_path := some "/bin/app", min_length := none } =
      [{ type := "text",
         text := "Error executing analyze_binary: No such file or directory" }] := by
  have h := (analyze_binary_probe_failure_raises envToolsGone "/bin/app"
    "No such file or directory" rfl).1 rfl
  exact ⟨h.1, h.2.1⟩

/-- Claim C10: on an existing file, a present `checksec` exiting nonzero
raises out of the handler — no manual probe runs (the trace holds only the
`checksec` invocation), no install note is returned — and the caller gets
the dispatcher's `Error executing check_security: <detail>` block. -/
theorem check_security_checksec_error_raises (env : Env) (p d : String)
    (hex : env.fileExists (pathStr p) = true)
    (hcs : env.run ["checksec", "--file=" ++ pathStr p] = .calledProcessError d) :
    check_security env p =
      (.error (.calledProcessError d), [["checksec", "--file=" ++ pathStr p]]) ∧
    call_tool env "check_security" { file_path := some p, min_length := none } =
      [{ type := "text", text := "Error executing check_security: " ++ d }] := by
  have hab : check_security env p =
      (.error (.calledProcessError d), [["checksec", "--file=" ++ pathStr p]]) := by
    simp [check_security, hex, hcs]
  refine ⟨hab, ?_⟩
  have hct := (call_tool_single_block env "check_security"
    { file_path := some p, min_length := none }).2.2 (.calledProcessError d)
    (by simp [dispatch, hab])
  exact hct.trans rfl

/-- Claim C10 witness: a failing `checksec` yields the dispatcher error
block with a single-command trace. -/
theorem check_security_checksec_error_check :
    check_security envToolsFail "/bin/app" =
      (.error (.calledProcessError "Command returned non-zero exit status 1."),
       [["checksec", "--file=/bin/app"]]) ∧
    call_tool envToolsFail "check_security" { file_path := some "/bin/app", min_length := none } =
      [{ type := "text",
         text := "Error executing check_security: Command returned non-zero exit status 1." }] := by
  have h := check_security_checksec_error_raises envToolsFail "/bin/app"
    "Command returned non-zero exit status 1." rfl rfl
  exact ⟨h.1.trans rfl, h.2.trans rfl⟩
